import Mathlib

/-!
Shallow embedding of `FetchingService` (src/unnamed/part_000): the outbound
request executor `fetch` and the failure classifier `handleRequestError`,
together with the JavaScript string/number primitives they rely on
(`String.prototype.includes`, `parseInt(s, 10)`).

Side effects (logging, warning surfaces, exception-count tracking, timer
arming/clearing, the transport call) are modelled as an explicit effect
trace; the asynchronous transport outcome is passed in as a parameter of
`fetch`.
-/

namespace GitLensFetching

/-- Headers of a failing response; the code reads only `x-ratelimit-reset`. -/
structure ResponseHeaders where
  xRateLimitReset : Option String
deriving Repr, DecidableEq

/-- The server response payload attached to a request exception
(`ex.response`); the code tests its presence, reads `headers`, and in debug
mode reads `errors[0].message`. -/
structure ErrorResponse where
  headers : Option ResponseHeaders
  errors : Option (List String)
deriving Repr, DecidableEq

/-- A raw exception reaching the `catch` block of `fetch`:
`isCancellationErrorInstance` models `ex instanceof CancellationError`,
`name`/`status`/`message`/`response` model the homonymous fields
(`status` is `none` when the exception carries no HTTP status, as for a
plain `AbortError`). -/
structure RequestEx where
  isCancellationErrorInstance : Bool
  name : String
  status : Option Nat
  message : String
  response : Option ErrorResponse
deriving Repr, DecidableEq

/-- `AuthenticationErrorReason` from `../../errors`. -/
inductive AuthenticationErrorReason where
  | Unauthorized
  | Forbidden
deriving Repr, DecidableEq

/-- The taxonomy errors constructed by the classifier, with the fields the
code passes to each constructor. -/
inductive TaxonomyError where
  | CancellationError (cause : Option RequestEx)
  | AuthenticationError (providerId : String) (reason : AuthenticationErrorReason)
      (cause : RequestEx)
  | ProviderRequestNotFoundError (cause : RequestEx)
  | ProviderRequestRateLimitError (cause : RequestEx) (token : Option String)
      (resetAt : Option Int)
  | ProviderRequestClientError (cause : RequestEx)
deriving Repr, DecidableEq

/-- The `Retriever` interface: identity and tokens read by the code. Its two
mutable counter methods are modelled as effects (see `Effect`). -/
structure Retriever where
  id : String
  name : String
  statusPageUrl : Option String
  token : Option String
deriving Repr, DecidableEq

/-- Observable side effects of a `fetch` call, in program order.
`providerTrackRequestException` is `provider.trackRequestException()`;
`subscriptionTrackRequestException` is
`this.container.subscription.trackRequestException()` — the code uses the
latter in the 500 and 503 branches and the former in the 502 branch. -/
inductive Effect where
  | logError
  | providerTrackRequestException
  | subscriptionTrackRequestException
  | providerResetRequestExceptionCount
  | showFailed500Warning (message : String)
  | showTimedOutWarning (providerName : String)
  | showDebugErrorMessage (message : String)
  | timerSet (ms : Nat)
  | timerCleared
  | transportCall
deriving Repr, DecidableEq

/-- `pat.isPrefixOf s || pat occurs somewhere in the tail of s`:
contiguous-substring occurrence, the semantics of
`String.prototype.includes` on the character list. -/
def charsInclude (pat : List Char) : List Char → Bool
  | [] => pat.isEmpty
  | c :: tail => pat.isPrefixOf (c :: tail) || charsInclude pat tail

/-- Model of JavaScript `s.includes(pat)` (case-sensitive contiguous
substring). -/
def stringIncludes (s pat : String) : Bool :=
  charsInclude pat.data s.data

/-- Decimal value of a digit list (most significant first). -/
def digitsToNat (ds : List Char) : Nat :=
  ds.foldl (fun acc c => acc * 10 + (c.toNat - 48)) 0

/-- JavaScript whitespace skipped by `parseInt`. -/
def jsWhitespace (c : Char) : Bool :=
  c == ' ' || c == '\t' || c == '\n' || c == '\r' || c == '\x0b' || c == '\x0c'

/-- Longest leading run of decimal digits; `none` when there is none
(`parseInt` then yields `NaN`). -/
def parseDigits (cs : List Char) : Option Nat :=
  let ds := cs.takeWhile Char.isDigit
  if ds.isEmpty then none else some (digitsToNat ds)

/-- Model of JavaScript `parseInt(s, 10)`: skip leading whitespace, accept an
optional sign, read the longest leading run of decimal digits; `none` models
`NaN` (no digit found). -/
def jsParseInt (s : String) : Option Int :=
  match s.data.dropWhile jsWhitespace with
  | '-' :: rest => (parseDigits rest).map (fun n => -(n : Int))
  | '+' :: rest => (parseDigits rest).map (fun n => (n : Int))
  | cs => (parseDigits cs).map (fun n => (n : Int))

/-- `ex.response?.headers?.['x-ratelimit-reset']`. -/
def rateLimitResetHeader (ex : RequestEx) : Option String :=
  (ex.response.bind ErrorResponse.headers).bind ResponseHeaders.xRateLimitReset

/-- The `resetAt` computation of the 403 rate-limit branch: parse the header
when present, and drop the value again when the parse yields `NaN`. -/
def rateLimitResetAt (ex : RequestEx) : Option Int :=
  match rateLimitResetHeader ex with
  | some reset => jsParseInt reset
  | none => none

/-- The message passed to `showIntegrationRequestFailed500WarningMessage`
(statuses 500 and 503); the status-page sentence is appended only when
`statusPageUrl` is truthy (present and non-empty). -/
def failed500WarningMessage (provider : Retriever) : String :=
  provider.name ++ " failed to respond and might be experiencing issues." ++
    (match provider.statusPageUrl with
     | some url =>
       if url = "" then ""
       else "Please visit the [" ++ provider.name ++ " status page](" ++ url ++
         ") for more information."
     | none => "")

/-- The debug-mode error surface message:
`provider.name ++ " request failed: " ++ (ex.response?.errors?.[0] ?? ex.message)`. -/
def debugFailureMessage (provider : Retriever) (ex : RequestEx) : String :=
  provider.name ++ " request failed: " ++
    (((ex.response.bind ErrorResponse.errors).bind List.head?).getD ex.message)

/-- The trailing `if (Logger.isDebugging)` block, reached by the branches
that `break` out of the switch. -/
def debugTail (isDebugging : Bool) (provider : Retriever) (ex : RequestEx) : List Effect :=
  if isDebugging then [Effect.showDebugErrorMessage (debugFailureMessage provider ex)] else []

/-- What `handleRequestError` throws: the original exception object rethrown
unchanged (`throw ex`), or a freshly constructed taxonomy error. -/
inductive ClassifyThrown where
  | original
  | taxonomy (e : TaxonomyError)
deriving Repr, DecidableEq

/-- Result of `handleRequestError`: `thrown = none` means the method returned
normally; `effects` is the trace of its side effects in program order. -/
structure ClassifyResult where
  thrown : Option ClassifyThrown
  effects : List Effect
deriving Repr, DecidableEq

/-- `ex.status >= 400 && ex.status < 500`, the guard of the `default` branch
(`undefined` compares false in JavaScript, hence `none` yields `false`). -/
def statusIn400s : Option Nat → Bool
  | some n => decide (400 ≤ n) && decide (n < 500)
  | none => false

/-- `FetchingService.handleRequestError`. The switch on `ex.status` is
rendered as an equality chain over the distinct case labels; the 502 and
`default`-non-4xx branches `break` into the trailing debug block, all other
branches `throw` or `return`. -/
def handleRequestError (provider : Retriever) (ex : RequestEx) (isDebugging : Bool) :
    ClassifyResult :=
  if ex.isCancellationErrorInstance then ⟨some ClassifyThrown.original, []⟩
  else if ex.name = "AbortError" then
    ⟨some (ClassifyThrown.taxonomy (TaxonomyError.CancellationError (some ex))), []⟩
  else if ex.status = some 404 ∨ ex.status = some 410 ∨ ex.status = some 422 then
    ⟨some (ClassifyThrown.taxonomy (TaxonomyError.ProviderRequestNotFoundError ex)), []⟩
  else if ex.status = some 401 then
    ⟨some (ClassifyThrown.taxonomy
      (TaxonomyError.AuthenticationError provider.id AuthenticationErrorReason.Unauthorized ex)),
     []⟩
  else if ex.status = some 403 then
    if stringIncludes ex.message "rate limit" then
      ⟨some (ClassifyThrown.taxonomy
        (TaxonomyError.ProviderRequestRateLimitError ex provider.token (rateLimitResetAt ex))),
       []⟩
    else
      ⟨some (ClassifyThrown.taxonomy
        (TaxonomyError.AuthenticationError "gitkraken" AuthenticationErrorReason.Forbidden ex)),
       []⟩
  else if ex.status = some 500 then
    if ex.response.isSome then
      ⟨none, [Effect.logError, Effect.subscriptionTrackRequestException,
              Effect.showFailed500Warning (failed500WarningMessage provider)]⟩
    else ⟨none, [Effect.logError]⟩
  else if ex.status = some 502 then
    ⟨none, [Effect.logError] ++
      (if stringIncludes ex.message "timeout" then
        [Effect.providerTrackRequestException, Effect.showTimedOutWarning provider.name]
       else []) ++ debugTail isDebugging provider ex⟩
  else if ex.status = some 503 then
    ⟨none, [Effect.logError, Effect.subscriptionTrackRequestException,
            Effect.showFailed500Warning (failed500WarningMessage provider)]⟩
  else if statusIn400s ex.status then
    ⟨some (ClassifyThrown.taxonomy (TaxonomyError.ProviderRequestClientError ex)), []⟩
  else ⟨none, debugTail isDebugging provider ex⟩

/-- `CancellationToken` from vscode: only `isCancellationRequested` is read
at the precondition check. -/
structure CancellationToken where
  isCancellationRequested : Bool
deriving Repr, DecidableEq

/-- `FetchOptions` of the source. -/
structure FetchOptions where
  cancellation : Option CancellationToken
  timeout : Option Nat
  userAgent : Option String
deriving Repr, DecidableEq

/-- `options?.cancellation?.isCancellationRequested`. -/
def cancellationRequested (options : Option FetchOptions) : Bool :=
  match options with
  | some o =>
    match o.cancellation with
    | some c => c.isCancellationRequested
    | none => false
  | none => false

/-- The `timeout` local of `fetch`: with a cancellation token the explicit
`options.timeout` is used with no default; otherwise
`options?.timeout ?? 60 * 1000`. -/
def effectiveTimeout (options : Option FetchOptions) : Option Nat :=
  match options with
  | some o =>
    match o.cancellation with
    | some _ => o.timeout
    | none => some (o.timeout.getD (60 * 1000))
  | none => some (60 * 1000)

/-- `const timer = timeout != null ? setTimeout(...) : undefined`. -/
def timerSetEffects (options : Option FetchOptions) : List Effect :=
  match effectiveTimeout options with
  | some ms => [Effect.timerSet ms]
  | none => []

/-- `promise.finally(() => clearTimeout(timer))`: the timer is cleared on
settlement when one was armed. -/
def timerClearEffects (options : Option FetchOptions) : List Effect :=
  match effectiveTimeout options with
  | some _ => [Effect.timerCleared]
  | none => []

/-- Outcome of awaiting the underlying transport call, a parameter of the
model: the raw response, or the raw exception caught by `fetch`. -/
inductive TransportResult (ρ : Type) where
  | ok (response : ρ)
  | err (ex : RequestEx)

/-- What a failing `fetch` rejects with: the original exception rethrown
(`throw ex` after `handleRequestError` returns, or the classifier's own
`throw ex`), or a taxonomy error raised by the classifier or the
precondition check. -/
inductive FetchFailure where
  | originalException (ex : RequestEx)
  | taxonomy (e : TaxonomyError)
deriving Repr, DecidableEq

/-- Resolve the classifier's throw against the caught exception: when the
classifier returns normally (`none`), `fetch` rethrows the original. -/
def fetchFailureOf (ex : RequestEx) : Option ClassifyThrown → FetchFailure
  | some ClassifyThrown.original => FetchFailure.originalException ex
  | some (ClassifyThrown.taxonomy e) => FetchFailure.taxonomy e
  | none => FetchFailure.originalException ex

/-- Result of a `fetch` call: its settlement and its effect trace. -/
structure FetchResult (ρ : Type) where
  outcome : Except FetchFailure ρ
  effects : List Effect

/-- `FetchingService.fetch`. The pre-signalled-cancellation check precedes
every effect; otherwise the timer is armed per `effectiveTimeout`, the
transport is called, the timer cleared on settlement, and the outcome is the
raw response (after resetting the provider's exception count) or the failure
routed through `handleRequestError` and rethrown. Request-init/header
merging is opaque to the model. -/
def fetch {ρ : Type} (provider : Retriever) (options : Option FetchOptions)
    (transport : TransportResult ρ) (isDebugging : Bool) : FetchResult ρ :=
  if cancellationRequested options then
    ⟨Except.error (FetchFailure.taxonomy (TaxonomyError.CancellationError none)), []⟩
  else
    match transport with
    | TransportResult.ok r =>
      ⟨Except.ok r,
       timerSetEffects options ++ [Effect.transportCall] ++ timerClearEffects options ++
         [Effect.providerResetRequestExceptionCount]⟩
    | TransportResult.err ex =>
      let cr := handleRequestError provider ex isDebugging
      ⟨Except.error (fetchFailureOf ex cr.thrown),
       timerSetEffects options ++ [Effect.transportCall] ++ timerClearEffects options ++
         cr.effects⟩

/-- The provider's mutable exception counter replayed over an effect trace:
`trackRequestException` increments, `resetRequestExceptionCount` zeroes. -/
def providerExceptionCountAfter (initial : Nat) (effects : List Effect) : Nat :=
  effects.foldl
    (fun count e =>
      match e with
      | Effect.providerResetRequestExceptionCount => 0
      | Effect.providerTrackRequestException => count + 1
      | _ => count)
    initial

/-- A concrete provider used by witnesses. -/
def sampleProvider : Retriever :=
  ⟨"github", "GitHub", some "https://www.githubstatus.com", some "ghp_token"⟩

/-- Concrete options whose cancellation token is already signalled. -/
def cancelledOptions : Option FetchOptions :=
  some ⟨some ⟨true⟩, none, none⟩

/-- A concrete 404 exception. -/
def exNotFound : RequestEx :=
  ⟨false, "HttpError", some 404, "Not Found", none⟩

/-- A concrete 401 exception. -/
def exUnauthorized : RequestEx :=
  ⟨false, "HttpError", some 401, "Bad credentials", none⟩

/-- A concrete 403 exception without the rate-limit phrase. -/
def exForbidden : RequestEx :=
  ⟨false, "HttpError", some 403, "Resource not accessible by integration", none⟩

/-- A concrete exception that is an instance of `CancellationError`. -/
def exCancel : RequestEx :=
  ⟨true, "CancellationError", none, "Operation cancelled", none⟩

/-- A concrete `AbortError`-shaped exception. -/
def exAbort : RequestEx :=
  ⟨false, "AbortError", none, "The operation was aborted", none⟩

/-- C9: every non-cancellation exception with status 404, 410 or 422 is
classified as `ProviderRequestNotFoundError` wrapping the original
exception, with no side effects. -/
theorem c9_notFound (provider : Retriever) (ex : RequestEx) (dbg : Bool)
    (hc : ex.isCancellationErrorInstance = false) (hn : ex.name ≠ "AbortError")
    (hs : ex.status = some 404 ∨ ex.status = some 410 ∨ ex.status = some 422) :
    handleRequestError provider ex dbg =
      ⟨some (ClassifyThrown.taxonomy (TaxonomyError.ProviderRequestNotFoundError ex)), []⟩ := by
  unfold handleRequestError
  rw [if_neg (by simp [hc]), if_neg hn, if_pos hs]

/-- C9 witness: the 404 instance. -/
theorem c9_witness :
    handleRequestError sampleProvider exNotFound false =
      ⟨some (ClassifyThrown.taxonomy (TaxonomyError.ProviderRequestNotFoundError exNotFound)),
       []⟩ :=
  c9_notFound sampleProvider exNotFound false rfl (by decide) (Or.inl rfl)

/-- C8: every non-cancellation exception with status 401 is classified as
`AuthenticationError` with reason `Unauthorized`, carrying the calling
provider's id and the original exception as cause, with no side effects. -/
theorem c8_unauthorized (provider : Retriever) (ex : RequestEx) (dbg : Bool)
    (hc : ex.isCancellationErrorInstance = false) (hn : ex.name ≠ "AbortError")
    (hs : ex.status = some 401) :
    handleRequestError provider ex dbg =
      ⟨some (ClassifyThrown.taxonomy
        (TaxonomyError.AuthenticationError provider.id AuthenticationErrorReason.Unauthorized ex)),
       []⟩ := by
  unfold handleRequestError
  rw [if_neg (by simp [hc]), if_neg hn, if_neg (by simp [hs]), if_pos hs]

/-- C8 witness: the 401 instance. -/
theorem c8_witness :
    handleRequestError sampleProvider exUnauthorized false =
      ⟨some (ClassifyThrown.taxonomy
        (TaxonomyError.AuthenticationError sampleProvider.id
          AuthenticationErrorReason.Unauthorized exUnauthorized)),
       []⟩ :=
  c8_unauthorized sampleProvider exUnauthorized false rfl (by decide) rfl

/-- C5: every non-cancellation exception with status 403 whose message does
not contain the rate-limit phrase is classified as `AuthenticationError`
with reason `Forbidden` carrying the fixed literal "gitkraken" as provider
identity, for every calling provider. -/
theorem c5_forbiddenFixedIdentity (provider : Retriever) (ex : RequestEx) (dbg : Bool)
    (hc : ex.isCancellationErrorInstance = false) (hn : ex.name ≠ "AbortError")
    (hs : ex.status = some 403)
    (hm : stringIncludes ex.message "rate limit" = false) :
    handleRequestError provider ex dbg =
      ⟨some (ClassifyThrown.taxonomy
        (TaxonomyError.AuthenticationError "gitkraken" AuthenticationErrorReason.Forbidden ex)),
       []⟩ := by
  unfold handleRequestError
  rw [if_neg (by simp [hc]), if_neg hn, if_neg (by simp [hs]), if_neg (by simp [hs]),
    if_pos hs, if_neg (by simp [hm])]

/-- C5 witness: the fixed identity differs from the sample provider's id. -/
theorem c5_witness :
    handleRequestError sampleProvider exForbidden false =
      ⟨some (ClassifyThrown.taxonomy
        (TaxonomyError.AuthenticationError "gitkraken" AuthenticationErrorReason.Forbidden
          exForbidden)),
       []⟩ ∧ sampleProvider.id ≠ "gitkraken" :=
  ⟨c5_forbiddenFixedIdentity sampleProvider exForbidden false rfl (by decide) rfl (by decide),
   by decide⟩

/-- C6: an exception that is an instance of `CancellationError` is rethrown
unchanged with no side effects regardless of its status; an `AbortError`-shaped
exception that is not a `CancellationError` instance is wrapped as a new
`CancellationError` whose cause is the original exception. -/
theorem c6_cancellationPropagation (provider : Retriever) (ex : RequestEx) (dbg : Bool) :
    (ex.isCancellationErrorInstance = true →
      handleRequestError provider ex dbg = ⟨some ClassifyThrown.original, []⟩) ∧
    (ex.isCancellationErrorInstance = false → ex.name = "AbortError" →
      handleRequestError provider ex dbg =
        ⟨some (ClassifyThrown.taxonomy (TaxonomyError.CancellationError (some ex))), []⟩) := by
  constructor
  · intro h
    unfold handleRequestError
    rw [if_pos h]
  · intro h hname
    unfold handleRequestError
    rw [if_neg (by simp [h]), if_pos hname]

/-- C6 witness: both branches at concrete exceptions. -/
theorem c6_witness :
    handleRequestError sampleProvider exCancel false = ⟨some ClassifyThrown.original, []⟩ ∧
    handleRequestError sampleProvider exAbort false =
      ⟨some (ClassifyThrown.taxonomy (TaxonomyError.CancellationError (some exAbort))), []⟩ :=
  ⟨(c6_cancellationPropagation sampleProvider exCancel false).1 rfl,
   (c6_cancellationPropagation sampleProvider exAbort false).2 rfl rfl⟩

/-- C3: when the supplied cancellation token is already signalled on entry,
`fetch` fails with a fresh `CancellationError` and its effect trace is empty:
no transport call, no timer, no health-sink method. -/
theorem c3_preSignalledCancellation (ρ : Type) (provider : Retriever)
    (options : Option FetchOptions) (transport : TransportResult ρ) (dbg : Bool)
    (h : cancellationRequested options = true) :
    (fetch provider options transport dbg).outcome =
      Except.error (FetchFailure.taxonomy (TaxonomyError.CancellationError none)) ∧
    (fetch provider options transport dbg).effects = [] := by
  unfold fetch
  rw [if_pos (by simp [h])]
  exact ⟨rfl, rfl⟩

/-- C3 witness: pre-signalled token at a concrete call. -/
theorem c3_witness :
    (fetch sampleProvider cancelledOptions (TransportResult.ok 7) false).outcome =
      Except.error (FetchFailure.taxonomy (TaxonomyError.CancellationError none)) ∧
    (fetch sampleProvider cancelledOptions (TransportResult.ok 7) false).effects = [] :=
  c3_preSignalledCancellation Nat sampleProvider cancelledOptions (TransportResult.ok 7) false rfl

/-- C7: when the transport resolves, `fetch` returns the raw response
unmodified and the provider's exception counter is zero afterwards whatever
its prior value (the trace ends in `resetRequestExceptionCount`). -/
theorem c7_successResetsCounter (ρ : Type) (provider : Retriever)
    (options : Option FetchOptions) (r : ρ) (dbg : Bool)
    (h : cancellationRequested options = false) :
    (fetch provider options (TransportResult.ok r) dbg).outcome = Except.ok r ∧
    ∀ initial : Nat,
      providerExceptionCountAfter initial
        (fetch provider options (TransportResult.ok r) dbg).effects = 0 := by
  unfold fetch
  rw [if_neg (by simp [h])]
  refine ⟨rfl, fun initial => ?_⟩
  rcases ht : effectiveTimeout options with _ | ms <;>
    simp [providerExceptionCountAfter, timerSetEffects, timerClearEffects, ht]

/-- C7 witness: a concrete successful call with a previously non-zero
counter. -/
theorem c7_witness :
    (fetch sampleProvider (some ⟨none, some 5000, none⟩) (TransportResult.ok 42) false).outcome =
      Except.ok 42 ∧
    providerExceptionCountAfter 3
      (fetch sampleProvider (some ⟨none, some 5000, none⟩)
        (TransportResult.ok 42) false).effects = 0 :=
  ⟨(c7_successResetsCounter Nat sampleProvider (some ⟨none, some 5000, none⟩) 42 false rfl).1,
   (c7_successResetsCounter Nat sampleProvider (some ⟨none, some 5000, none⟩) 42 false rfl).2 3⟩

/-- A concrete 500 exception with a populated response payload. -/
def ex500 : RequestEx :=
  ⟨false, "HttpError", some 500, "Internal Server Error", some ⟨none, none⟩⟩

/-- C1 counterexample: at status 500 with a populated response payload,
classification performs zero calls to the provider's own
`trackRequestException`; it is the container subscription that is tracked. -/
theorem c1_counterexample :
    ¬ (handleRequestError sampleProvider ex500 false).effects.count
        Effect.providerTrackRequestException = 1 := by decide

/-- C1 (amended): for every non-cancellation exception with status 500 and a
populated response payload, classification invokes the container
subscription's `trackRequestException` exactly once (the provider's own
counter method is not invoked), emits the degraded-service warning, and
returns normally so no taxonomy error propagates from classification, while
`fetch` still re-raises the original exception to its caller. -/
theorem c1_amended (provider : Retriever) (ex : RequestEx) (options : Option FetchOptions)
    (dbg : Bool)
    (hc : ex.isCancellationErrorInstance = false) (hn : ex.name ≠ "AbortError")
    (hs : ex.status = some 500) (hr : ex.response.isSome = true)
    (ho : cancellationRequested options = false) :
    (handleRequestError provider ex dbg).thrown = none ∧
    (handleRequestError provider ex dbg).effects.count
      Effect.subscriptionTrackRequestException = 1 ∧
    (handleRequestError provider ex dbg).effects.count
      Effect.providerTrackRequestException = 0 ∧
    Effect.showFailed500Warning (failed500WarningMessage provider) ∈
      (handleRequestError provider ex dbg).effects ∧
    (@fetch Unit provider options (TransportResult.err ex) dbg).outcome =
      Except.error (FetchFailure.originalException ex) := by
  have hh : handleRequestError provider ex dbg =
      ⟨none, [Effect.logError, Effect.subscriptionTrackRequestException,
              Effect.showFailed500Warning (failed500WarningMessage provider)]⟩ := by
    unfold handleRequestError
    rw [if_neg (by simp [hc]), if_neg hn, if_neg (by simp [hs]), if_neg (by simp [hs]),
      if_neg (by simp [hs]), if_pos hs, if_pos hr]
  refine ⟨by rw [hh], by rw [hh]; simp [List.count_cons], by rw [hh]; simp [List.count_cons],
    by rw [hh]; simp, ?_⟩
  unfold fetch
  rw [if_neg (by simp [ho])]
  simp [hh, fetchFailureOf]

/-- C1 (amended) witness: the concrete 500 instance. -/
theorem c1_witness :
    (handleRequestError sampleProvider ex500 false).thrown = none ∧
    (handleRequestError sampleProvider ex500 false).effects.count
      Effect.subscriptionTrackRequestException = 1 ∧
    (handleRequestError sampleProvider ex500 false).effects.count
      Effect.providerTrackRequestException = 0 ∧
    Effect.showFailed500Warning (failed500WarningMessage sampleProvider) ∈
      (handleRequestError sampleProvider ex500 false).effects ∧
    (@fetch Unit sampleProvider none (TransportResult.err ex500) false).outcome =
      Except.error (FetchFailure.originalException ex500) :=
  c1_amended sampleProvider ex500 none false rfl (by decide) rfl rfl rfl

/-- A concrete 403 rate-limit exception with header value "1700000000". -/
def exRateLimit : RequestEx :=
  ⟨false, "HttpError", some 403, "API rate limit exceeded for user",
   some ⟨some ⟨some "1700000000"⟩, none⟩⟩

/-- C2: for every non-cancellation exception with status 403 whose message
contains the rate-limit phrase and whose response carries an
`x-ratelimit-reset` header value `s`, classification raises
`ProviderRequestRateLimitError` whose `resetAt` is `jsParseInt s`; the parse
yields `1700000000` on "1700000000" and is absent (`none`, no exception) on
"not-a-number". -/
theorem c2_rateLimitReset (provider : Retriever) (ex : RequestEx) (dbg : Bool) (s : String)
    (hc : ex.isCancellationErrorInstance = false) (hn : ex.name ≠ "AbortError")
    (hs : ex.status = some 403)
    (hm : stringIncludes ex.message "rate limit" = true)
    (hh : rateLimitResetHeader ex = some s) :
    (handleRequestError provider ex dbg).thrown =
      some (ClassifyThrown.taxonomy
        (TaxonomyError.ProviderRequestRateLimitError ex provider.token (jsParseInt s))) ∧
    jsParseInt "1700000000" = some 1700000000 ∧
    jsParseInt "not-a-number" = none := by
  refine ⟨?_, by decide, by decide⟩
  unfold handleRequestError
  rw [if_neg (by simp [hc]), if_neg hn, if_neg (by simp [hs]), if_neg (by simp [hs]),
    if_pos hs, if_pos hm]
  simp [rateLimitResetAt, hh]

/-- C2 witness: the concrete header value "1700000000". -/
theorem c2_witness :
    ((handleRequestError sampleProvider exRateLimit false).thrown =
      some (ClassifyThrown.taxonomy
        (TaxonomyError.ProviderRequestRateLimitError exRateLimit sampleProvider.token
          (jsParseInt "1700000000"))) ∧
    jsParseInt "1700000000" = some 1700000000 ∧
    jsParseInt "not-a-number" = none) ∧
    jsParseInt "1700000000" = some 1700000000 ∧
    (handleRequestError sampleProvider exRateLimit false).thrown =
      some (ClassifyThrown.taxonomy
        (TaxonomyError.ProviderRequestRateLimitError exRateLimit (some "ghp_token")
          (some 1700000000))) :=
  ⟨c2_rateLimitReset sampleProvider exRateLimit false "1700000000" rfl (by decide) rfl
      (by decide) rfl,
   by decide,
   by
    have h := c2_rateLimitReset sampleProvider exRateLimit false "1700000000" rfl (by decide)
      rfl (by decide) rfl
    rw [h.1, h.2.1]
    decide⟩

/-- A decimal digit is not `parseInt` whitespace. -/
lemma jsWhitespace_eq_false_of_isDigit {c : Char} (h : c.isDigit = true) :
    jsWhitespace c = false := by
  have h1 : c ≠ ' ' := fun he => by subst he; exact absurd h (by decide)
  have h2 : c ≠ '\t' := fun he => by subst he; exact absurd h (by decide)
  have h3 : c ≠ '\n' := fun he => by subst he; exact absurd h (by decide)
  have h4 : c ≠ '\r' := fun he => by subst he; exact absurd h (by decide)
  have h5 : c ≠ '\x0b' := fun he => by subst he; exact absurd h (by decide)
  have h6 : c ≠ '\x0c' := fun he => by subst he; exact absurd h (by decide)
  simp only [jsWhitespace, Bool.or_eq_false_iff, beq_eq_false_iff_ne, ne_eq]
  exact ⟨⟨⟨⟨⟨h1, h2⟩, h3⟩, h4⟩, h5⟩, h6⟩

/-- When the string begins with a decimal digit, `jsParseInt` returns exactly
the value of the longest leading digit run: no whitespace is skipped, no sign
is consumed, and the non-digit tail is ignored. -/
lemma jsParseInt_digitHead {s : String} {c : Char} {rest : List Char}
    (hsd : s.data = c :: rest) (hd : c.isDigit = true) :
    jsParseInt s = some (Int.ofNat (digitsToNat (s.data.takeWhile Char.isDigit))) := by
  have hw := jsWhitespace_eq_false_of_isDigit hd
  have hm : c ≠ '-' := fun he => by subst he; exact absurd hd (by decide)
  have hp : c ≠ '+' := fun he => by subst he; exact absurd hd (by decide)
  unfold jsParseInt
  rw [hsd, List.dropWhile_cons, hw]
  simp only [Bool.false_eq_true, if_false]
  split
  · next rest2 heq =>
    exact absurd (List.cons.inj heq).1 hm
  · next rest2 heq =>
    exact absurd (List.cons.inj heq).1 hp
  · simp [parseDigits, List.takeWhile_cons, hd]

/-- `handleRequestError` never arms a timer: `timerSet` effects originate
only in `fetch`. -/
lemma handleRequestError_no_timerSet (provider : Retriever) (ex : RequestEx) (dbg : Bool)
    (t : Nat) : Effect.timerSet t ∉ (handleRequestError provider ex dbg).effects := by
  intro hmem
  unfold handleRequestError debugTail at hmem
  repeat' split at hmem
  all_goals simp_all

/-- C4: the effective timeout equals the explicit `options.timeout` when a
cancellation token is supplied (no default), defaults to 60,000 ms when no
cancellation token is supplied (in particular when no timeout is given), and
a timer is armed in `fetch`'s trace exactly when the effective timeout is
present. -/
theorem c4_timeoutPolicy (ρ : Type) (provider : Retriever) (options : Option FetchOptions)
    (transport : TransportResult ρ) (dbg : Bool)
    (h : cancellationRequested options = false) :
    (∀ o, options = some o → o.cancellation.isSome = true →
      effectiveTimeout options = o.timeout) ∧
    (∀ o, options = some o → o.cancellation = none →
      effectiveTimeout options = some (o.timeout.getD (60 * 1000))) ∧
    (options = none → effectiveTimeout options = some (60 * 1000)) ∧
    (∀ t, Effect.timerSet t ∈ (fetch provider options transport dbg).effects ↔
      effectiveTimeout options = some t) := by
  refine ⟨?_, ?_, ?_, ?_⟩
  · rintro o rfl hsome
    rcases o with ⟨canc, tmo, ua⟩
    rcases canc with _ | c
    · simp at hsome
    · rfl
  · rintro o rfl hnone
    rcases o with ⟨canc, tmo, ua⟩
    simp only at hnone
    subst hnone
    rfl
  · rintro rfl
    rfl
  · intro t
    unfold fetch
    rw [if_neg (by simp [h])]
    rcases transport with r | ex
    · rcases ht : effectiveTimeout options with _ | ms <;>
        simp [timerSetEffects, timerClearEffects, ht] <;> exact eq_comm
    · have hno := handleRequestError_no_timerSet provider ex dbg t
      rcases ht : effectiveTimeout options with _ | ms <;>
        simp [timerSetEffects, timerClearEffects, ht, hno] <;> exact eq_comm

/-- C4 witness: a token with no timeout yields no effective timeout; absent
token and timeout yield the 60,000 ms default, and the armed timer matches. -/
theorem c4_witness :
    effectiveTimeout (some ⟨some ⟨false⟩, none, none⟩) = none ∧
    effectiveTimeout (some ⟨none, none, none⟩) = some 60000 ∧
    (Effect.timerSet 60000 ∈
      (fetch sampleProvider (some ⟨none, none, none⟩) (TransportResult.ok 0) false).effects ↔
      effectiveTimeout (some ⟨none, none, none⟩) = some 60000) :=
  ⟨(c4_timeoutPolicy Nat sampleProvider (some ⟨some ⟨false⟩, none, none⟩)
      (TransportResult.ok 0) false rfl).1 ⟨some ⟨false⟩, none, none⟩ rfl rfl,
   (c4_timeoutPolicy Nat sampleProvider (some ⟨none, none, none⟩)
      (TransportResult.ok 0) false rfl).2.1 ⟨none, none, none⟩ rfl rfl,
   (c4_timeoutPolicy Nat sampleProvider (some ⟨none, none, none⟩)
      (TransportResult.ok 0) false rfl).2.2.2 60000⟩

/-- A concrete 403 rate-limit exception whose header value has a numeric
prefix followed by a non-digit tail. -/
def exRateLimitPrefix : RequestEx :=
  ⟨false, "HttpError", some 403, "secondary rate limit reached",
   some ⟨some ⟨some "1700000000.5"⟩, none⟩⟩

/-- C10: for every 403 rate-limit exception whose `x-ratelimit-reset` header
value begins with a decimal digit, the raised `ProviderRequestRateLimitError`
carries `resetAt` equal to the value of the longest leading digit run (the
non-numeric tail is ignored); in particular "1700000000.5" parses to
1700000000 and "123abc" to 123. -/
theorem c10_numericPrefixReset (provider : Retriever) (ex : RequestEx) (dbg : Bool)
    (s : String) (c : Char) (rest : List Char)
    (hc : ex.isCancellationErrorInstance = false) (hn : ex.name ≠ "AbortError")
    (hs : ex.status = some 403)
    (hm : stringIncludes ex.message "rate limit" = true)
    (hh : rateLimitResetHeader ex = some s)
    (hsd : s.data = c :: rest) (hd : c.isDigit = true) :
    (handleRequestError provider ex dbg).thrown =
      some (ClassifyThrown.taxonomy
        (TaxonomyError.ProviderRequestRateLimitError ex provider.token
          (some (Int.ofNat (digitsToNat (s.data.takeWhile Char.isDigit)))))) ∧
    jsParseInt "1700000000.5" = some 1700000000 ∧
    jsParseInt "123abc" = some 123 := by
  refine ⟨?_, by decide, by decide⟩
  have hp := jsParseInt_digitHead hsd hd
  unfold handleRequestError
  rw [if_neg (by simp [hc]), if_neg hn, if_neg (by simp [hs]), if_neg (by simp [hs]),
    if_pos hs, if_pos hm]
  simp [rateLimitResetAt, hh, hp]

/-- C10 witness: the concrete header value "1700000000.5". -/
theorem c10_witness :
    (handleRequestError sampleProvider exRateLimitPrefix false).thrown =
      some (ClassifyThrown.taxonomy
        (TaxonomyError.ProviderRequestRateLimitError exRateLimitPrefix sampleProvider.token
          (some (Int.ofNat
            (digitsToNat (("1700000000.5" : String).data.takeWhile Char.isDigit)))))) ∧
    jsParseInt "1700000000.5" = some 1700000000 ∧
    jsParseInt "123abc" = some 123 :=
  c10_numericPrefixReset sampleProvider exRateLimitPrefix false "1700000000.5" '1'
    ['7', '0', '0', '0', '0', '0', '0', '0', '0', '.', '5'] rfl (by decide) rfl (by decide)
    rfl (by decide) (by decide)

end GitLensFetching
